import Mathlib

set_option maxRecDepth 100000

/-!
Verification development for the sst-frontend repository.

The development shallowly embeds the Opportunity Query & Evaluation
Pipeline: the in-memory query path (`get_opportunities` in `src/app.py`,
whose filtering/sorting/pagination block is textually identical to
`api_opportunities` in `src/app_render.py`), the SQL pushdown path
(`list_opportunities` in `src/public/server.py`), the two evaluation
engines (`generate_evaluation_recommendations` in `src/app.py` and in
`src/app_render.py`), and the keyword-window text extraction functions
(`extract_deliverables_from_description`,
`extract_proposal_requirements_from_description` in `src/app.py`).

Python machine-level behaviour that the source relies on is modelled
explicitly: `str.lower` (ASCII case folding), substring containment and
`str.find`, `str.strip`, list slicing with negative indices, stable
`list.sort`, floor integer division `//` (raising on a zero divisor), and
the slice of `datetime` used by the evaluation engine
(`datetime.fromisoformat` on the forms occurring here, and the fact that
subtracting a timezone-aware datetime from a naive one raises `TypeError`).
SQLite behaviour used by the pushdown path (case-insensitive `LIKE` for
ASCII, `ORDER BY` on text columns with binary collation, `LIMIT`/`OFFSET`
clamping) is modelled likewise; `ORDER BY` tie order, which SQLite leaves
unspecified, is modelled as stable.
-/

namespace SST

/-- Model of Python `str.lower` (ASCII case folding; agrees with CPython on
ASCII strings, which is the alphabet of every comparison in this code). -/
def pyLower (s : String) : String :=
  ⟨s.data.map Char.toLower⟩

/-- Index of the first occurrence of `needle` in `hay`, as a list scan;
model of Python `str.find` (which returns the least index, or -1 modelled
here as `none`). -/
def strFind (needle : List Char) : List Char → Option Nat
  | [] => if needle.isPrefixOf ([] : List Char) then some 0 else none
  | c :: t =>
    if needle.isPrefixOf (c :: t) then some 0
    else (strFind needle t).map (· + 1)

/-- Model of Python `hay.find(needle)` on strings. -/
def pyFind (hay needle : String) : Option Nat :=
  strFind needle.data hay.data

/-- Model of Python `needle in hay` substring containment. -/
def pyContains (hay needle : String) : Bool :=
  (pyFind hay needle).isSome

/-- Model of the whitespace set stripped by Python `str.strip()`
(ASCII part: space, tab, newline, carriage return, vertical tab, form feed). -/
def pyIsSpace (c : Char) : Bool :=
  c == ' ' || c == '\t' || c == '\n' || c == '\r' || c == '\x0b' || c == '\x0c'

/-- Model of Python `str.strip()`: drop leading and trailing whitespace. -/
def pyStrip (s : String) : String :=
  ⟨((s.data.dropWhile pyIsSpace).reverse.dropWhile pyIsSpace).reverse⟩

/-- Resolution of one Python slice endpoint for a sequence of length `len`:
negative indices count from the end and everything is clamped to
`[0, len]`. -/
def pySliceIdx (len : Nat) (i : Int) : Nat :=
  if i < 0 then ((len : Int) + i).toNat else min i.toNat len

/-- Model of Python list slicing `l[a:b]` (step 1), including
negative-index wraparound and clamping. -/
def pySlice (l : List α) (a b : Int) : List α :=
  (l.take (pySliceIdx l.length b)).drop (pySliceIdx l.length a)

/-- Opportunity record.  The source treats records as string-valued dicts
read with `opp.get(key, '')`; per the record model every access defaults to
the empty string, so the embedding uses total string fields where a missing
field is represented by `""`.  The pushdown path reads a SQLite table whose
columns `agency`, `naics`, `response_due_date`, `notice_type`, `setaside`
are the record-model aliases of `full_parent_path_name`, `naics_code`,
`response_deadline`, `type`, and the set-aside field (spec §3); the shared
logical fields are stored once. -/
structure Opp where
  notice_id : String
  title : String
  description : String
  full_parent_path_name : String
  department : String
  naics_code : String
  psc : String
  notice_type : String
  posted_date : String
  response_deadline : String
  setaside : String
  active : String
  type_of_set_aside_description : String
  deriving Repr, DecidableEq, Inhabited

/-- An all-empty record, for building concrete examples. -/
def emptyOpp : Opp :=
  ⟨"", "", "", "", "", "", "", "", "", "", "", "", ""⟩

/-- Search filter of the in-memory path (`app.py` line 62): keep the record
unless `search` is non-empty and `search.lower()` is not a substring of
`(title + ' ' + description).lower()`. -/
def passes_search (search : String) (opp : Opp) : Bool :=
  search == "" || pyContains (pyLower (opp.title ++ " " ++ opp.description)) (pyLower search)

/-- Agency filter of the in-memory path (`app.py` line 66): keep the record
unless `agency` is non-empty and not a substring (case-sensitive `in`) of
`full_parent_path_name`. -/
def passes_agency (agency : String) (opp : Opp) : Bool :=
  agency == "" || pyContains opp.full_parent_path_name agency

/-- NAICS filter of the in-memory path (`app.py` line 70). -/
def passes_naics (naics : String) (opp : Opp) : Bool :=
  naics == "" || pyContains opp.naics_code naics

/-- Active filter of the in-memory path (`app.py` line 74): keep the record
unless `active` is non-empty and `active.lower() != opp['active'].lower()`. -/
def passes_active (active : String) (opp : Opp) : Bool :=
  active == "" || pyLower active == pyLower opp.active

/-- Filtering loop of the in-memory path (`app.py` lines 59-77): the
`continue` chain keeps exactly the records passing every check. -/
def filter_opportunities (search agency naics active : String) (records : List Opp) : List Opp :=
  records.filter (fun opp =>
    passes_search search opp && passes_agency agency opp &&
    passes_naics naics opp && passes_active active opp)

/-- Insert `a` into an already ordered list, after every element that must
strictly precede it (`prec b a` = `b` strictly precedes `a`). -/
def insertOrd (prec : α → α → Bool) (a : α) : List α → List α
  | [] => [a]
  | b :: bs => if prec b a then b :: insertOrd prec a bs else a :: b :: bs

/-- Stable sort by a strict precedence predicate; model of Python
`list.sort` (Timsort is stable) and of SQLite `ORDER BY` with tie order
chosen stable. -/
def stableSortBy (prec : α → α → Bool) : List α → List α
  | [] => []
  | x :: xs => insertOrd prec x (stableSortBy prec xs)

/-- Dynamic field access `x.get(sort_by, '')` for the three allow-listed
in-memory sort keys (`app.py` line 83); unknown keys default to `""`. -/
def getField (opp : Opp) (key : String) : String :=
  match key with
  | "posted_date" => opp.posted_date
  | "response_deadline" => opp.response_deadline
  | "title" => opp.title
  | _ => ""

/-- Code-point lexicographic strict order on character lists: the
comparison Python uses for `str < str` and SQLite for text under the
default binary collation (UTF-8 byte order coincides with code-point
order). -/
def strLtB : List Char → List Char → Bool
  | [], [] => false
  | [], _ :: _ => true
  | _ :: _, [] => false
  | a :: as, b :: bs =>
    if a.toNat < b.toNat then true
    else if b.toNat < a.toNat then false
    else strLtB as bs

/-- Strict `<` on strings as Python and SQLite compare them. -/
def pyStrLt (a b : String) : Bool :=
  strLtB a.data b.data

/-- Strict precedence on records under a string sort key, descending when
`desc` (models Python `list.sort(key=..., reverse=...)` comparisons and
SQL `ORDER BY col ASC|DESC`). -/
def sortKeyCmp (key : Opp → String) (desc : Bool) (b a : Opp) : Bool :=
  if desc then pyStrLt (key a) (key b) else pyStrLt (key b) (key a)

/-- Sorting step of the in-memory path (`app.py` lines 80-85): sort only
when `sort_by` is allow-listed, with `reverse = (sort_order == 'desc')`;
the key is `x.get(sort_by, '') or ''`, and since the record model stores
missing fields as `""` the `or ''` is the identity. -/
def sort_opportunities (sort_by sort_order : String) (l : List Opp) : List Opp :=
  if sort_by ∈ ["posted_date", "response_deadline", "title"] then
    stableSortBy (sortKeyCmp (fun x => getField x sort_by) (sort_order == "desc")) l
  else l

/-- Pagination metadata of the in-memory path response (`app.py` 98-105). -/
structure Pagination where
  page : Int
  per_page : Int
  total : Int
  total_pages : Int
  has_next : Bool
  has_prev : Bool
  deriving Repr, DecidableEq, Inhabited

/-- Response of the in-memory path (`app.py` lines 96-106). -/
structure PageResult where
  opportunities : List Opp
  pagination : Pagination
  deriving Repr, DecidableEq, Inhabited

/-- The in-memory query path: `get_opportunities` in `src/app.py` lines
42-110 (textually identical filtering/sorting/pagination in
`api_opportunities`, `src/app_render.py` lines 89-157).  `page` and
`per_page` arrive already parsed as Python ints.  `total_pages` uses
Python floor division `//`, which raises `ZeroDivisionError` on
`per_page == 0`; the route's `except` turns that into an error response,
modelled as `Except.error`. -/
def get_opportunities (page per_page : Int)
    (search agency naics active sort_by sort_order : String)
    (records : List Opp) : Except String PageResult :=
  let sorted := sort_opportunities sort_by sort_order
    (filter_opportunities search agency naics active records)
  let total : Int := sorted.length
  let start := (page - 1) * per_page
  let stop := start + per_page
  let rows := pySlice sorted start stop
  if per_page = 0 then Except.error "integer division or modulo by zero"
  else
    let total_pages := Int.fdiv (total + per_page - 1) per_page
    Except.ok ⟨rows, ⟨page, per_page, total, total_pages,
      decide (page < total_pages), decide (1 < page)⟩⟩

/-- DataTables column-index map of the pushdown path (`server.py` 445-457);
unknown indices default to `posted_date`. -/
def col_map (c : String) : String :=
  match c with
  | "1" => "notice_id"
  | "2" => "title"
  | "3" => "agency"
  | "4" => "department"
  | "5" => "naics"
  | "6" => "psc"
  | "7" => "notice_type"
  | "8" => "posted_date"
  | "9" => "response_due_date"
  | "10" => "setaside"
  | _ => "posted_date"

/-- Column read of the opportunities table in the pushdown path; column
names are mapped to the record fields per the record-model aliases. -/
def sqlColGet (opp : Opp) (col : String) : String :=
  match col with
  | "notice_id" => opp.notice_id
  | "title" => opp.title
  | "agency" => opp.full_parent_path_name
  | "department" => opp.department
  | "naics" => opp.naics_code
  | "psc" => opp.psc
  | "notice_type" => opp.notice_type
  | "posted_date" => opp.posted_date
  | "response_due_date" => opp.response_deadline
  | "setaside" => opp.setaside
  | _ => ""

/-- WHERE clause of the pushdown path (`server.py` 462-473): six
`COALESCE(col,'') LIKE '%search%'` disjuncts; SQLite `LIKE` is
case-insensitive for ASCII, modelled by lowering both sides. -/
def sqlLikeSearch (search : String) (opp : Opp) : Bool :=
  pyContains (pyLower opp.notice_id) (pyLower search) ||
  pyContains (pyLower opp.title) (pyLower search) ||
  pyContains (pyLower opp.full_parent_path_name) (pyLower search) ||
  pyContains (pyLower opp.department) (pyLower search) ||
  pyContains (pyLower opp.naics_code) (pyLower search) ||
  pyContains (pyLower opp.psc) (pyLower search)

/-- SQLite `LIMIT length OFFSET start`: a negative OFFSET acts as 0
(`Int.toNat`), a negative LIMIT means no limit. -/
def sqlWindow (l : List Opp) (len start : Int) : List Opp :=
  let dropped := l.drop start.toNat
  if len < 0 then dropped else dropped.take len.toNat

/-- Response of the pushdown path (`server.py` 501-505).  The SELECT
projects ten columns; the model returns whole records, with row
observations read through those columns. -/
structure SqlResult where
  data : List Opp
  recordsTotal : Int
  recordsFiltered : Int
  deriving Repr, DecidableEq, Inhabited

/-- The pushdown query path: `list_opportunities` in `src/public/server.py`
lines 431-508.  The caller-supplied `search` is stripped; the count query
and the data query share the WHERE predicate; ordering is
`ORDER BY col_map(order_col) (DESC iff order_dir.lower() == 'desc')`. -/
def list_opportunities (start len : Int)
    (search order_col order_dir : String) (table : List Opp) : SqlResult :=
  let search2 := pyStrip search
  let descOrder := pyLower order_dir == "desc"
  let order_by := col_map order_col
  let filtered := if search2 == "" then table else table.filter (sqlLikeSearch search2)
  let total : Int := filtered.length
  let sorted := stableSortBy (sortKeyCmp (fun x => sqlColGet x order_by) descOrder) filtered
  ⟨sqlWindow sorted len start, total, total⟩

/-- Model of a Python `datetime` as used here: `ts` is the timestamp in
seconds (for aware values, adjusted to UTC), `aware` records whether the
value carries a timezone offset.  `datetime.now()` is naive. -/
structure PyDateTime where
  ts : Int
  aware : Bool
  deriving Repr, DecidableEq, Inhabited

/-- Model of Python `s.replace('Z', '+00:00')` for a single-character
pattern: every `'Z'` is replaced. -/
def pyReplaceZ (s : String) : String :=
  ⟨s.data.flatMap (fun c => if c = 'Z' then "+00:00".data else [c])⟩

/-- Value of one ASCII digit, `none` otherwise. -/
def digitVal (c : Char) : Option Nat :=
  if c.isDigit then some (c.toNat - 48) else none

/-- Read exactly two ASCII digits. -/
def parseTwo : List Char → Option (Nat × List Char)
  | a :: b :: rest =>
    match digitVal a, digitVal b with
    | some x, some y => some (10 * x + y, rest)
    | _, _ => none
  | _ => none

/-- Read exactly four ASCII digits. -/
def parseFour : List Char → Option (Nat × List Char)
  | a :: b :: c :: d :: rest =>
    match digitVal a, digitVal b, digitVal c, digitVal d with
    | some w, some x, some y, some z => some (1000 * w + 100 * x + 10 * y + z, rest)
    | _, _, _, _ => none
  | _ => none

/-- Consume one expected character. -/
def expectChar (c : Char) : List Char → Option (List Char)
  | x :: rest => if x = c then some rest else none
  | [] => none

/-- Gregorian leap year test. -/
def isLeap (y : Nat) : Bool :=
  (y % 4 == 0 && y % 100 != 0) || y % 400 == 0

/-- Days in a month of the proleptic Gregorian calendar. -/
def daysInMonth (y m : Nat) : Nat :=
  match m with
  | 1 => 31 | 3 => 31 | 5 => 31 | 7 => 31 | 8 => 31 | 10 => 31 | 12 => 31
  | 4 => 30 | 6 => 30 | 9 => 30 | 11 => 30
  | 2 => if isLeap y then 29 else 28
  | _ => 0

/-- Days from 1970-01-01 to the given civil date (standard
era-decomposition algorithm). -/
def daysFromCivil (y : Int) (m d : Nat) : Int :=
  let y2 : Int := if m ≤ 2 then y - 1 else y
  let era : Int := Int.fdiv y2 400
  let yoe : Int := y2 - era * 400
  let mp : Int := if m > 2 then (m : Int) - 3 else (m : Int) + 9
  let doy : Int := Int.fdiv (153 * mp + 2) 5 + (d : Int) - 1
  let doe : Int := yoe * 365 + Int.fdiv yoe 4 - Int.fdiv yoe 100 + doy
  era * 146097 + doe - 719468

/-- Parse the optional `:SS` seconds suffix of a time. -/
def parseSeconds : List Char → Option (Nat × List Char)
  | ':' :: rest =>
    match parseTwo rest with
    | some (s, rest2) => if s ≤ 59 then some (s, rest2) else none
    | none => none
  | rest => some (0, rest)

/-- Parse an optional `±HH:MM` UTC offset (which makes the value aware);
returns the offset in seconds. -/
def parseOffset : List Char → Option (Option Int × List Char)
  | [] => some (none, [])
  | '+' :: rest =>
    match parseTwo rest with
    | some (oh, r1) =>
      match expectChar ':' r1 with
      | some r2 =>
        match parseTwo r2 with
        | some (om, r3) =>
          if oh ≤ 23 && om ≤ 59 then some (some ((oh : Int) * 3600 + om * 60), r3) else none
        | none => none
      | none => none
    | none => none
  | '-' :: rest =>
    match parseTwo rest with
    | some (oh, r1) =>
      match expectChar ':' r1 with
      | some r2 =>
        match parseTwo r2 with
        | some (om, r3) =>
          if oh ≤ 23 && om ≤ 59 then some (some (-((oh : Int) * 3600 + om * 60)), r3) else none
        | none => none
      | none => none
    | none => none
  | _ => none

/-- Parse the `THH:MM[:SS][±HH:MM]` tail of an ISO string: hours, minutes,
optional seconds, optional offset. -/
def parseTimeTail (dateSecs : Int) : List Char → Option PyDateTime
  | 'T' :: rest =>
    match parseTwo rest with
    | some (h, r1) =>
      match expectChar ':' r1 with
      | some r2 =>
        match parseTwo r2 with
        | some (mi, r3) =>
          if h ≤ 23 && mi ≤ 59 then
            match parseSeconds r3 with
            | some (s, r4) =>
              match parseOffset r4 with
              | some (off, r5) =>
                if r5 = [] then
                  let base := dateSecs + (h : Int) * 3600 + (mi : Int) * 60 + (s : Int)
                  match off with
                  | none => some ⟨base, false⟩
                  | some o => some ⟨base - o, true⟩
                else none
              | none => none
            | none => none
          else none
        | none => none
      | none => none
    | none => none
  | _ => none

/-- Model of Python `datetime.fromisoformat`, restricted to the shapes in
play in this repository: `YYYY-MM-DD`, optionally followed by
`THH:MM[:SS]` and an optional `±HH:MM` offset (the form every
`'Z'`-suffixed deadline takes after the source's
`.replace('Z', '+00:00')`).  A parse with an offset yields an aware value;
anything else (including free text such as `"not-a-date"`) yields `none`,
standing for the `ValueError` the source catches. -/
def pyFromIso (s : String) : Option PyDateTime :=
  match parseFour s.data with
  | none => none
  | some (y, r1) =>
    match expectChar '-' r1 with
    | none => none
    | some r2 =>
      match parseTwo r2 with
      | none => none
      | some (m, r3) =>
        match expectChar '-' r3 with
        | none => none
        | some r4 =>
          match parseTwo r4 with
          | none => none
          | some (d, r5) =>
            if 1 ≤ m && m ≤ 12 && 1 ≤ d && d ≤ daysInMonth y m then
              let dateSecs := daysFromCivil (y : Int) m d * 86400
              match r5 with
              | [] => some ⟨dateSecs, false⟩
              | tail => parseTimeTail dateSecs tail
            else none

/-- Model of Python datetime subtraction yielding whole seconds:
subtracting an aware and a naive datetime raises `TypeError`, modelled as
`none`. -/
def pySubSecs (a b : PyDateTime) : Option Int :=
  if a.aware = b.aware then some (a.ts - b.ts) else none

/-- The urgent-deadline message (`app.py` line 331). -/
def urgentMsg (d : Int) : String :=
  "⚠️ URGENT: Response deadline is in " ++ toString d ++ " days"

/-- The plan-ahead deadline message (`app.py` line 333). -/
def planMsg (d : Int) : String :=
  "⏰ Response deadline is in " ++ toString d ++ " days - plan accordingly"

/-- The comfortable-deadline message (`app.py` line 335). -/
def comfortMsg (d : Int) : String :=
  "✅ Response deadline is in " ++ toString d ++ " days - good planning time"

/-- The unparseable-deadline message (`app.py` line 337). -/
def unclearMsg : String :=
  "📅 Response deadline information available but format unclear"

/-- The NAICS passthrough message (`app.py` line 352). -/
def naicsMsg (n : String) : String :=
  "🏷️ NAICS Code: " ++ n

/-- The fallible part of the deadline check's `try` block: parse the
deadline after replacing `'Z'` and subtract the injected naive now
(`datetime.now()`), yielding the difference in seconds; `none` stands for
the exceptions the bare `except` catches (`ValueError` from the parse,
`TypeError` from subtracting aware and naive datetimes). -/
def deadlineDiff (now : Int) (response_deadline : String) : Option Int :=
  match pyFromIso (pyReplaceZ response_deadline) with
  | none => none
  | some dl => pySubSecs dl ⟨now, false⟩

/-- Deadline-urgency check (`app.py` lines 323-337, identical in
`app_render.py` lines 277-291): on an exception emit the format-unclear
message, otherwise classify the whole-day difference (`timedelta.days`
floors by 86400). -/
def deadline_recommendations (now : Int) (response_deadline : String) : List String :=
  if response_deadline = "" then []
  else
    match deadlineDiff now response_deadline with
    | none => [unclearMsg]
    | some diff =>
      let days := Int.fdiv diff 86400
      if days < 7 then [urgentMsg days]
      else if days < 14 then [planMsg days]
      else [comfortMsg days]

/-- Set-aside check (`app.py` lines 340-347): first keyword match wins. -/
def set_aside_recommendations (set_aside : String) : List String :=
  if set_aside = "" then []
  else if pyContains (pyLower set_aside) "small business" then
    ["🏢 Small business set-aside opportunity"]
  else if pyContains (pyLower set_aside) "women" then
    ["👩 Women-owned business set-aside opportunity"]
  else if pyContains (pyLower set_aside) "veteran" then
    ["🎖️ Veteran-owned business set-aside opportunity"]
  else []

/-- NAICS check (`app.py` lines 350-352). -/
def naics_recommendations (naics : String) : List String :=
  if naics = "" then [] else [naicsMsg naics]

/-- Active-status check (`app.py` lines 355-359). -/
def active_recommendations (active : String) : List String :=
  if active ≠ "" && pyLower active == "yes" then ["✅ Opportunity is currently active"]
  else if active ≠ "" && pyLower active == "no" then ["❌ Opportunity is no longer active"]
  else []

namespace App

/-- Evaluation engine of `src/app.py` lines 319-361: the four checks run in
the order deadline, set-aside, NAICS, active, each appending its messages
to the shared list, so the result is their concatenation in that order.
`now` is the injected clock (`datetime.now()`, naive). -/
def generate_evaluation_recommendations (now : Int) (opp : Opp) : List String :=
  deadline_recommendations now opp.response_deadline ++
  set_aside_recommendations opp.type_of_set_aside_description ++
  naics_recommendations opp.naics_code ++
  active_recommendations opp.active

end App

namespace AppRender

/-- Evaluation engine of `src/app_render.py` lines 273-305: the checks run
in the order deadline, active, NAICS, and there is no set-aside check. -/
def generate_evaluation_recommendations (now : Int) (opp : Opp) : List String :=
  deadline_recommendations now opp.response_deadline ++
  active_recommendations opp.active ++
  naics_recommendations opp.naics_code

end AppRender

/-- Loop body of the extraction functions (`app.py` lines 382-390): find
the first occurrence of `kw` in the lowered description `dl`, slice the
ORIGINAL description from `max(0, start - before)` (Nat subtraction) to
`min(len, start + len(keyword) + after)`, and strip surrounding
whitespace.  The `none` branch mirrors the source's unreachable
`start == -1` path (the loop only calls this under the containment
guard) and is never taken at call sites. -/
def keywordContext (description dl : String) (before after : Nat) (kw : String) : String :=
  match pyFind dl kw with
  | some start =>
    pyStrip ⟨(description.data.take
      (min description.data.length (start + kw.data.length + after))).drop (start - before)⟩
  | none => ""

/-- Keyword-window context extraction shared by
`extract_deliverables_from_description` (`app.py` 363-392) and
`extract_proposal_requirements_from_description` (`app.py` 394-423), whose
bodies are this algorithm at different parameters: on a falsy description
return `[]`; otherwise visit the keywords in caller order, and for each
keyword contained in the lowered description (`if keyword in
description_lower`) append the context around its first occurrence;
finally truncate to `cap` entries (`[:10]` / `[:15]`). -/
def extract_contexts (description : String) (keywords : List String)
    (before after cap : Nat) : List String :=
  if description = "" then []
  else
    let dl := pyLower description
    (keywords.filterMap (fun kw =>
      if pyContains dl kw then some (keywordContext description dl before after kw)
      else none)).take cap

/-- Keyword list of `extract_deliverables_from_description`
(`app.py` lines 371-378). -/
def deliverable_keywords : List String :=
  ["deliverable", "deliverables", "report", "reports", "document", "documents",
   "analysis", "analyses", "study", "studies", "assessment", "assessments",
   "plan", "plans", "strategy", "strategies", "proposal", "proposals",
   "presentation", "presentations", "training", "workshop", "workshops",
   "software", "application", "applications", "system", "systems",
   "database", "databases", "website", "websites", "platform", "platforms"]

/-- Keyword list of `extract_proposal_requirements_from_description`
(`app.py` lines 402-409). -/
def requirement_keywords : List String :=
  ["requirement", "requirements", "must", "shall", "should", "need", "needs",
   "experience", "qualification", "qualifications", "certification", "certifications",
   "license", "licenses", "clearance", "clearances", "security", "compliance",
   "timeline", "schedule", "deadline", "deadlines", "milestone", "milestones",
   "budget", "cost", "pricing", "price", "funding", "payment", "terms",
   "scope", "work", "tasks", "activities", "responsibilities", "duties"]

/-- `extract_deliverables_from_description` (`app.py` lines 363-392):
window of 50 characters either side, capped at 10 contexts. -/
def extract_deliverables_from_description (description : String) : List String :=
  extract_contexts description deliverable_keywords 50 50 10

/-- `extract_proposal_requirements_from_description` (`app.py` lines
394-423): window of 100 characters either side, capped at 15 contexts. -/
def extract_proposal_requirements_from_description (description : String) : List String :=
  extract_contexts description requirement_keywords 100 100 15

/-! ### Helper lemmas -/

lemma length_insertOrd (prec : α → α → Bool) (a : α) (l : List α) :
    (insertOrd prec a l).length = l.length + 1 := by
  induction l with
  | nil => rfl
  | cons b bs ih =>
    simp only [insertOrd]
    split
    · simp [ih]
    · simp

lemma length_stableSortBy (prec : α → α → Bool) (l : List α) :
    (stableSortBy prec l).length = l.length := by
  induction l with
  | nil => rfl
  | cons x xs ih =>
    simp only [stableSortBy]
    rw [length_insertOrd, ih]
    rfl

lemma length_sort_opportunities (sort_by sort_order : String) (l : List Opp) :
    (sort_opportunities sort_by sort_order l).length = l.length := by
  unfold sort_opportunities
  split
  · exact length_stableSortBy _ _
  · rfl

lemma filter_all_empty (records : List Opp) :
    filter_opportunities "" "" "" "" records = records := by
  unfold filter_opportunities
  exact List.filter_eq_self.mpr (fun opp _ => rfl)

lemma take_min_length (l : List α) (n : Nat) : l.take (min n l.length) = l.take n := by
  rw [List.take_eq_take]
  omega

lemma pySlice_nonneg (l : List α) (a n : Int) (ha : 0 ≤ a) (hn : 0 ≤ n) :
    pySlice l a (a + n) = (l.drop a.toNat).take n.toNat := by
  unfold pySlice pySliceIdx
  rw [if_neg (by omega), if_neg (by omega)]
  have hab : (a + n).toNat = a.toNat + n.toNat := Int.toNat_add ha hn
  rw [hab, take_min_length]
  rcases Nat.le_total a.toNat l.length with h | h
  · rw [Nat.min_eq_left h]
    exact (List.take_drop a.toNat n.toNat l).symm
  · rw [Nat.min_eq_right h]
    rw [List.drop_eq_nil_of_le (le_of_le_of_eq (by simp) rfl),
      List.drop_eq_nil_of_le h]
    simp

lemma ceil_bounds (t pp : Int) (hpp : 0 < pp) :
    t ≤ Int.fdiv (t + pp - 1) pp * pp ∧ Int.fdiv (t + pp - 1) pp * pp < t + pp := by
  rw [Int.fdiv_eq_ediv _ (le_of_lt hpp)]
  have h := Int.ediv_add_emod (t + pp - 1) pp
  have h2 := Int.emod_nonneg (t + pp - 1) (ne_of_gt hpp)
  have h3 := Int.emod_lt_of_pos (t + pp - 1) hpp
  have hcomm : (t + pp - 1) / pp * pp = pp * ((t + pp - 1) / pp) := mul_comm _ _
  constructor
  · rw [hcomm]; linarith
  · rw [hcomm]; linarith

/-- A convenient positional record builder for concrete examples:
`mkOpp notice_id title description full_parent_path_name naics_code
posted_date response_deadline active type_of_set_aside_description`,
with the remaining fields empty. -/
def mkOpp (nid ttl desc fppn naics posted deadline act setAside : String) : Opp :=
  ⟨nid, ttl, desc, fppn, "", naics, "", "", posted, deadline, "", act, setAside⟩

/-! ### Claims -/

/-- Record with agency path `"Department of Defense"`, used to refute C2. -/
def defenseOpp : Opp :=
  mkOpp "D1" "" "" "Department of Defense" "" "" "" "" ""

/-- Claim C2, counterexample: the claim reads the agency filter as a
case-insensitive substring test, but the source (`app.py` line 66,
`app_render.py` line 113) tests `agency not in full_parent_path_name`
without lowering either side.  The filter string `"defense"` is a
case-insensitive substring of `"Department of Defense"`, yet the engine
filters the record out (total 0, empty rows). -/
theorem c2_agency_case_insensitive_cex :
    pyContains (pyLower defenseOpp.full_parent_path_name) (pyLower "defense") = true ∧
    passes_agency "defense" defenseOpp = false ∧
    (get_opportunities 1 20 "" "defense" "" "" "posted_date" "desc" [defenseOpp]).toOption.map
      (fun p => (p.opportunities, p.pagination.total)) = some ([], 0) := by
  exact ⟨by decide, by decide, by decide⟩

/-- Claim C2, amended: for every record and non-empty agency filter string,
the in-memory query engine keeps the record iff the filter string is a
case-SENSITIVE substring of the record's `full_parent_path_name` (missing
field read as the empty string); the comparison is not case folded. -/
theorem c2_agency_filter_case_sensitive (agency : String) (opp : Opp) (records : List Opp)
    (h : agency ≠ "") :
    (passes_agency agency opp = pyContains opp.full_parent_path_name agency) ∧
    filter_opportunities "" agency "" "" records =
      records.filter (fun o => pyContains o.full_parent_path_name agency) := by
  have hbeq : (agency == "") = false := beq_eq_false_iff_ne.mpr h
  constructor
  · unfold passes_agency
    rw [hbeq, Bool.false_or]
  · unfold filter_opportunities
    apply List.filter_congr
    intro o _
    show (passes_search "" o && passes_agency agency o &&
      passes_naics "" o && passes_active "" o) = _
    unfold passes_search passes_agency passes_naics passes_active
    rw [hbeq]
    simp

/-- Witness for the amended C2 at a concrete input: with the
correctly-cased filter `"Defense"` the record passes and survives
filtering. -/
theorem c2_agency_filter_case_sensitive_witness :
    "Defense" ≠ "" ∧
    (passes_agency "Defense" defenseOpp = pyContains defenseOpp.full_parent_path_name "Defense") ∧
    filter_opportunities "" "Defense" "" "" [defenseOpp] =
      [defenseOpp].filter (fun o => pyContains o.full_parent_path_name "Defense") :=
  ⟨by decide, c2_agency_filter_case_sensitive "Defense" defenseOpp [defenseOpp] (by decide)⟩

/-- Claim C3, confirmed: the active filter is a case-insensitive EXACT
match (`app.py` line 74): a non-empty filter keeps a record iff the
lowered filter equals the lowered `active` field, so `"yes"` never matches
a record whose field is `"no"`, and an empty filter keeps every record. -/
theorem c3_active_filter_exact (active : String) (opp : Opp) (records : List Opp) :
    (active ≠ "" → (passes_active active opp = true ↔ pyLower active = pyLower opp.active)) ∧
    (active = "" → passes_active active opp = true) ∧
    (pyLower active = "yes" → opp.active = "no" → passes_active active opp = false) ∧
    (active ≠ "" → filter_opportunities "" "" "" active records =
      records.filter (fun o => pyLower active == pyLower o.active)) := by
  refine ⟨?_, ?_, ?_, ?_⟩
  · intro h
    unfold passes_active
    rw [beq_eq_false_iff_ne.mpr h, Bool.false_or]
    exact beq_iff_eq
  · intro h
    subst h
    rfl
  · intro hyes hno
    unfold passes_active
    have h1 : active ≠ "" := by
      intro he
      rw [he] at hyes
      exact absurd hyes (by decide)
    rw [beq_eq_false_iff_ne.mpr h1, Bool.false_or, hno, hyes]
    decide
  · intro h
    unfold filter_opportunities
    apply List.filter_congr
    intro o _
    show (passes_search "" o && passes_agency "" o &&
      passes_naics "" o && passes_active active o) = _
    unfold passes_search passes_agency passes_naics passes_active
    rw [beq_eq_false_iff_ne.mpr h]
    simp

/-- Record with `active = "no"`, used in the C3 witness. -/
def inactiveOpp : Opp :=
  mkOpp "A1" "" "" "" "" "" "" "no" ""

/-- Witness for C3 at the concrete input `active = "yes"` against a record
whose field is `"no"`: the record is rejected. -/
theorem c3_active_filter_exact_witness :
    ("yes" : String) ≠ "" ∧ pyLower "yes" = "yes" ∧ inactiveOpp.active = "no" ∧
    (passes_active "yes" inactiveOpp = true ↔ pyLower "yes" = pyLower inactiveOpp.active) ∧
    passes_active "yes" inactiveOpp = false ∧
    filter_opportunities "" "" "" "yes" [inactiveOpp] =
      [inactiveOpp].filter (fun o => pyLower "yes" == pyLower o.active) := by
  refine ⟨by decide, by decide, by decide, ?_, ?_, ?_⟩
  · exact (c3_active_filter_exact "yes" inactiveOpp [inactiveOpp]).1 (by decide)
  · exact (c3_active_filter_exact "yes" inactiveOpp [inactiveOpp]).2.2.1 (by decide) rfl
  · exact (c3_active_filter_exact "yes" inactiveOpp [inactiveOpp]).2.2.2 (by decide)

/-- Record posted 2024-01-01, used to refute C4. -/
def janOpp : Opp :=
  mkOpp "r1" "" "" "" "" "2024-01-01" "" "" ""

/-- Record posted 2024-06-01, used to refute C4. -/
def junOpp : Opp :=
  mkOpp "r2" "" "" "" "" "2024-06-01" "" "" ""

/-- Claim C4, counterexample: with the out-of-allow-list key `"bogus"` and
direction `"desc"` the engine returns the rows in input order
`[janOpp, junOpp]`, whereas sorting on the default field `posted_date`
descending — the behaviour the claim asserts — would give
`[junOpp, janOpp]`. -/
theorem c4_unknown_sort_key_cex :
    (get_opportunities 1 20 "" "" "" "" "bogus" "desc" [janOpp, junOpp]).toOption.map
      (fun p => p.opportunities) = some [janOpp, junOpp] ∧
    stableSortBy (sortKeyCmp (fun x => getField x "posted_date") true) [janOpp, junOpp] =
      [junOpp, janOpp] ∧
    ([janOpp, junOpp] : List Opp) ≠ [junOpp, janOpp] := by
  exact ⟨by decide, by decide, by decide⟩

/-- Claim C4, amended: an out-of-allow-list `sort_by` silently skips the
sorting step entirely — the engine does not error, and the returned window
is cut from the filtered list in its original (store) order, regardless of
`sort_by` and `sort_order`; it is NOT re-sorted by the default field. -/
theorem c4_unknown_sort_key_no_sort (page pp : Int)
    (search agency naics active sort_by sort_order : String) (records : List Opp)
    (hsb : sort_by ∉ ["posted_date", "response_deadline", "title"]) (hpp : pp ≠ 0) :
    ∃ p, get_opportunities page pp search agency naics active sort_by sort_order records =
        Except.ok p ∧
      p.opportunities = pySlice (filter_opportunities search agency naics active records)
        ((page - 1) * pp) ((page - 1) * pp + pp) := by
  unfold get_opportunities sort_opportunities
  rw [if_neg hsb, if_neg hpp]
  exact ⟨_, rfl, rfl⟩

/-- Witness for the amended C4 at a concrete input. -/
theorem c4_unknown_sort_key_no_sort_witness :
    ("bogus" : String) ∉ ["posted_date", "response_deadline", "title"] ∧ (20 : Int) ≠ 0 ∧
    ∃ p, get_opportunities 1 20 "" "" "" "" "bogus" "desc" [janOpp, junOpp] = Except.ok p ∧
      p.opportunities = pySlice (filter_opportunities "" "" "" "" [janOpp, junOpp]) 0 20 :=
  ⟨by decide, by decide,
    c4_unknown_sort_key_no_sort 1 20 "" "" "" "" "bogus" "desc" [janOpp, junOpp]
      (by decide) (by decide)⟩

/-- Claim C5, counterexample: the edge cases do error or misbehave.
With `per_page = 0` the `total_pages` floor division raises
`ZeroDivisionError`, surfaced as an error response — not an empty window.
With `page = -1, per_page = 1` Python's negative slice indices wrap around
and the engine returns a NON-empty window.  With `per_page = -1` the floor
division produces `total_pages = -1`, a negative metadata field. -/
theorem c5_edge_pagination_cex :
    (get_opportunities 1 0 "" "" "" "" "posted_date" "desc" [emptyOpp]).toOption = none ∧
    (get_opportunities (-1) 1 "" "" "" "" "posted_date" "desc" [janOpp, junOpp]).toOption.map
      (fun p => p.opportunities) = some [junOpp] ∧
    (get_opportunities 1 (-1) "" "" "" "" "posted_date" "desc"
      [emptyOpp, janOpp, junOpp]).toOption.map
      (fun p => p.pagination.total_pages) = some (-1) := by
  exact ⟨by decide, by decide, by decide⟩

/-- Claim C5, amended: of the claimed edge cases only "page beyond the
last page" behaves as stated.  For `per_page ≥ 1` and `page` greater than
`total_pages`, the call succeeds with an empty row window and non-negative
`total` and `total_pages` (and `has_next = false`).  `per_page = 0`
instead raises a division error returned as an error response, a negative
`page` can return a non-empty window through Python negative-slice
semantics, and a negative `per_page` can make `total_pages` negative. -/
theorem c5_page_beyond_last_empty (page pp : Int)
    (search agency naics active sort_by sort_order : String) (records : List Opp)
    (hpp : 1 ≤ pp)
    (hbeyond : Int.fdiv
      (((filter_opportunities search agency naics active records).length : Int) + pp - 1) pp
      < page) :
    ∃ p, get_opportunities page pp search agency naics active sort_by sort_order records =
        Except.ok p ∧
      p.opportunities = [] ∧ 0 ≤ p.pagination.total ∧ 0 ≤ p.pagination.total_pages ∧
      p.pagination.has_next = false := by
  have hppos : (0 : Int) < pp := by omega
  simp only [get_opportunities]
  rw [if_neg (by omega : ¬pp = 0)]
  set f := filter_opportunities search agency naics active records with hf
  set s := sort_opportunities sort_by sort_order f with hs
  have hsf : ((s.length : Nat) : Int) = ((f.length : Nat) : Int) := by
    rw [hs, length_sort_opportunities]
  have hb2 : Int.fdiv (((s.length : Nat) : Int) + pp - 1) pp < page := by
    rw [hsf]; exact hbeyond
  have htpnn : (0 : Int) ≤ Int.fdiv (((s.length : Nat) : Int) + pp - 1) pp :=
    Int.fdiv_nonneg (by omega) (by omega)
  have hceil := ceil_bounds ((s.length : Nat) : Int) pp hppos
  have hstartnn : (0 : Int) ≤ (page - 1) * pp := mul_nonneg (by omega) (by omega)
  have hstart : ((s.length : Nat) : Int) ≤ (page - 1) * pp := by
    have h1 : Int.fdiv (((s.length : Nat) : Int) + pp - 1) pp * pp ≤ (page - 1) * pp :=
      mul_le_mul_of_nonneg_right (by omega) (by omega)
    exact le_trans hceil.1 h1
  refine ⟨_, rfl, ?_, ?_, ?_, ?_⟩
  · rw [pySlice_nonneg s _ pp hstartnn (by omega)]
    rw [List.drop_eq_nil_of_le (by omega)]
    simp
  · exact Int.natCast_nonneg _
  · exact htpnn
  · simp only [decide_eq_false_iff_not]
    omega

/-- Witness for the amended C5 at a concrete input: one record,
`per_page = 5`, `page = 2` (total_pages is 1, so page 2 is beyond the
end). -/
theorem c5_page_beyond_last_empty_witness :
    (1 : Int) ≤ 5 ∧
    Int.fdiv (((filter_opportunities "" "" "" "" [emptyOpp]).length : Int) + 5 - 1) 5 < 2 ∧
    (∃ p, get_opportunities 2 5 "" "" "" "" "posted_date" "desc" [emptyOpp] = Except.ok p ∧
      p.opportunities = [] ∧ 0 ≤ p.pagination.total ∧ 0 ≤ p.pagination.total_pages ∧
      p.pagination.has_next = false) :=
  ⟨by decide, by decide,
    c5_page_beyond_last_empty 2 5 "" "" "" "" "posted_date" "desc" [emptyOpp]
      (by decide) (by decide)⟩

/-- Claim C6, confirmed: for `page ≥ 1` and `per_page ≥ 1` the returned
rows are the window `[(page-1)*per_page, page*per_page)` of the
filtered-and-sorted sequence, `total` is the filtered count,
`total_pages` is `ceil(total / per_page)` (characterized by
`total ≤ total_pages * per_page < total + per_page`, and zero when
`total` is zero), `has_next = (page < total_pages)`,
`has_prev = (page > 1)`, and at most `per_page` rows are returned. -/
theorem c6_pagination_window_and_metadata (page pp : Int)
    (search agency naics active sort_by sort_order : String) (records : List Opp)
    (hpage : 1 ≤ page) (hpp : 1 ≤ pp) :
    ∃ p, get_opportunities page pp search agency naics active sort_by sort_order records =
        Except.ok p ∧
      p.opportunities = ((sort_opportunities sort_by sort_order
        (filter_opportunities search agency naics active records)).drop
          ((page - 1) * pp).toNat).take pp.toNat ∧
      p.opportunities.length ≤ pp.toNat ∧
      p.pagination.total =
        ((filter_opportunities search agency naics active records).length : Int) ∧
      p.pagination.total ≤ p.pagination.total_pages * pp ∧
      p.pagination.total_pages * pp < p.pagination.total + pp ∧
      (p.pagination.total = 0 → p.pagination.total_pages = 0) ∧
      (p.pagination.has_next = true ↔ page < p.pagination.total_pages) ∧
      (p.pagination.has_prev = true ↔ 1 < page) := by
  have hppos : (0 : Int) < pp := by omega
  set f := filter_opportunities search agency naics active records with hf
  set s := sort_opportunities sort_by sort_order f with hs
  have hlen : ((s.length : Nat) : Int) = ((f.length : Nat) : Int) := by
    rw [hs, length_sort_opportunities]
  simp only [get_opportunities]
  rw [if_neg (by omega : ¬pp = 0)]
  refine ⟨_, rfl, ?_, ?_, ?_, ?_, ?_, ?_, ?_, ?_⟩
  · exact pySlice_nonneg s _ pp (mul_nonneg (by omega) (by omega)) (by omega)
  · rw [pySlice_nonneg s _ pp (mul_nonneg (by omega) (by omega)) (by omega)]
    rw [List.length_take]
    exact Nat.min_le_left _ _
  · exact hlen
  · exact (ceil_bounds _ pp hppos).1
  · exact (ceil_bounds _ pp hppos).2
  · intro h0
    show Int.fdiv (((s.length : Nat) : Int) + pp - 1) pp = 0
    rw [Int.fdiv_eq_ediv _ (by omega)]
    have : ((s.length : Nat) : Int) = 0 := h0
    rw [this]
    exact Int.ediv_eq_zero_of_lt (by omega) (by omega)
  · exact decide_eq_true_iff
  · exact decide_eq_true_iff

/-- Witness for C6 at a concrete input: three records, `page = 2`,
`per_page = 2`. -/
theorem c6_pagination_window_and_metadata_witness :
    (1 : Int) ≤ 2 ∧
    (∃ p, get_opportunities 2 2 "" "" "" "" "posted_date" "desc"
        [emptyOpp, janOpp, junOpp] = Except.ok p ∧
      p.opportunities = ((sort_opportunities "posted_date" "desc"
        (filter_opportunities "" "" "" "" [emptyOpp, janOpp, junOpp])).drop
          ((((2 : Int) - 1) * 2).toNat)).take (2 : Int).toNat ∧
      p.opportunities.length ≤ (2 : Int).toNat ∧
      p.pagination.total =
        ((filter_opportunities "" "" "" "" [emptyOpp, janOpp, junOpp]).length : Int) ∧
      p.pagination.total ≤ p.pagination.total_pages * 2 ∧
      p.pagination.total_pages * 2 < p.pagination.total + 2 ∧
      (p.pagination.total = 0 → p.pagination.total_pages = 0) ∧
      (p.pagination.has_next = true ↔ 2 < p.pagination.total_pages) ∧
      (p.pagination.has_prev = true ↔ (1 : Int) < 2)) :=
  ⟨by decide,
    c6_pagination_window_and_metadata 2 2 "" "" "" "" "posted_date" "desc"
      [emptyOpp, janOpp, junOpp] (by decide) (by decide)⟩

lemma list_opportunities_empty_search (start len : Int) (oc od : String) (table : List Opp) :
    list_opportunities start len "" oc od table =
      ⟨sqlWindow (stableSortBy
          (sortKeyCmp (fun x => sqlColGet x (col_map oc)) (pyLower od == "desc")) table)
        len start,
       (table.length : Int), (table.length : Int)⟩ :=
  rfl

lemma get_opportunities_plain (page pp : Int) (sb so : String) (records : List Opp)
    (hpp : pp ≠ 0) (hsb : sb ∈ ["posted_date", "response_deadline", "title"]) :
    get_opportunities page pp "" "" "" "" sb so records =
      Except.ok ⟨pySlice (stableSortBy (sortKeyCmp (fun x => getField x sb) (so == "desc"))
          records) ((page - 1) * pp) ((page - 1) * pp + pp),
        ⟨page, pp, (records.length : Int), Int.fdiv ((records.length : Int) + pp - 1) pp,
         decide (page < Int.fdiv ((records.length : Int) + pp - 1) pp), decide (1 < page)⟩⟩ := by
  simp only [get_opportunities, sort_opportunities]
  rw [filter_all_empty]
  simp only [if_pos hsb, if_neg hpp, length_stableSortBy]

/-- Record whose description contains `"widget"`, used to refute C1. -/
def widgetOpp : Opp :=
  mkOpp "W1" "t" "widget stuff" "" "" "" "" "" ""

/-- Claim C1, counterexample: the two query paths are not observably
equivalent.  The in-memory path matches `search` against
`title + ' ' + description` while the pushdown path's WHERE clause matches
`notice_id/title/agency/department/naics/psc` — not the description.  On a
store holding one record whose description contains `"widget"`, searching
for `"widget"` returns total 1 and that row in-memory, but total 0 and no
rows pushed down. -/
theorem c1_pushdown_search_divergence_cex :
    (get_opportunities 1 20 "widget" "" "" "" "posted_date" "desc" [widgetOpp]).toOption.map
      (fun p => (p.opportunities, p.pagination.total)) = some ([widgetOpp], 1) ∧
    (list_opportunities 0 20 "widget" "8" "desc" [widgetOpp]).data = [] ∧
    (list_opportunities 0 20 "widget" "8" "desc" [widgetOpp]).recordsTotal = 0 := by
  exact ⟨by decide, by decide, by decide⟩

/-- Claim C1, amended: the equivalence fails in general (the search
predicates differ, the pushdown path has no agency/naics/active filters,
the in-memory direction test is `sort_order == 'desc'` while the pushdown
one lowercases first), but it holds for plain queries: with an empty
search, no agency/naics/active filter, corresponding sort columns
(`posted_date`/8, `response_deadline`/9, `title`/2), a direction that is
either exactly `"desc"` or not `"desc"` after lowering, and the window
correspondence `start = (page-1)*per_page`, `length = per_page` with
`page, per_page ≥ 1`, both paths return the same rows in the same order
and the same total. -/
theorem c1_pushdown_equiv_on_plain_queries (records : List Opp) (page pp : Int)
    (sort_by order_col sort_order : String)
    (hpage : 1 ≤ page) (hpp : 1 ≤ pp)
    (hsort : (sort_by = "posted_date" ∧ order_col = "8") ∨
      (sort_by = "response_deadline" ∧ order_col = "9") ∨
      (sort_by = "title" ∧ order_col = "2"))
    (hdir : sort_order = "desc" ∨ pyLower sort_order ≠ "desc") :
    ∃ p, get_opportunities page pp "" "" "" "" sort_by sort_order records = Except.ok p ∧
      p.opportunities =
        (list_opportunities ((page - 1) * pp) pp "" order_col sort_order records).data ∧
      p.pagination.total =
        (list_opportunities ((page - 1) * pp) pp "" order_col sort_order records).recordsTotal := by
  have hdesc : (sort_order == "desc") = (pyLower sort_order == "desc") := by
    rcases hdir with h | h
    · rw [h]
      decide
    · have h2 : sort_order ≠ "desc" := by
        intro he
        exact h (by rw [he]; decide)
      rw [beq_eq_false_iff_ne.mpr h2, beq_eq_false_iff_ne.mpr h]
  have hstartnn : (0 : Int) ≤ (page - 1) * pp := mul_nonneg (by omega) (by omega)
  have hwin : ∀ S : List Opp,
      pySlice S ((page - 1) * pp) ((page - 1) * pp + pp) = sqlWindow S pp ((page - 1) * pp) := by
    intro S
    rw [pySlice_nonneg S _ pp hstartnn (by omega)]
    unfold sqlWindow
    rw [if_neg (by omega : ¬pp < 0)]
  rcases hsort with ⟨hs, hc⟩ | ⟨hs, hc⟩ | ⟨hs, hc⟩ <;> subst hs <;> subst hc
  · rw [get_opportunities_plain page pp _ _ records (by omega) (by decide),
      list_opportunities_empty_search]
    have hkeys : sortKeyCmp (fun x => getField x "posted_date") (sort_order == "desc") =
        sortKeyCmp (fun x => sqlColGet x (col_map "8")) (pyLower sort_order == "desc") := by
      rw [hdesc]
      rfl
    exact ⟨_, rfl, by rw [hkeys]; exact hwin _, rfl⟩
  · rw [get_opportunities_plain page pp _ _ records (by omega) (by decide),
      list_opportunities_empty_search]
    have hkeys : sortKeyCmp (fun x => getField x "response_deadline") (sort_order == "desc") =
        sortKeyCmp (fun x => sqlColGet x (col_map "9")) (pyLower sort_order == "desc") := by
      rw [hdesc]
      rfl
    exact ⟨_, rfl, by rw [hkeys]; exact hwin _, rfl⟩
  · rw [get_opportunities_plain page pp _ _ records (by omega) (by decide),
      list_opportunities_empty_search]
    have hkeys : sortKeyCmp (fun x => getField x "title") (sort_order == "desc") =
        sortKeyCmp (fun x => sqlColGet x (col_map "2")) (pyLower sort_order == "desc") := by
      rw [hdesc]
      rfl
    exact ⟨_, rfl, by rw [hkeys]; exact hwin _, rfl⟩

/-- Witness for the amended C1 at a concrete input: two records, page 1 of
20, sorted by posted date descending via both parameterizations. -/
theorem c1_pushdown_equiv_on_plain_queries_witness :
    (1 : Int) ≤ 1 ∧ (1 : Int) ≤ 20 ∧
    (∃ p, get_opportunities 1 20 "" "" "" "" "posted_date" "desc" [janOpp, junOpp] =
        Except.ok p ∧
      p.opportunities =
        (list_opportunities ((1 - 1) * 20) 20 "" "8" "desc" [janOpp, junOpp]).data ∧
      p.pagination.total =
        (list_opportunities ((1 - 1) * 20) 20 "" "8" "desc" [janOpp, junOpp]).recordsTotal) :=
  ⟨by decide, by decide,
    c1_pushdown_equiv_on_plain_queries [janOpp, junOpp] 1 20 "posted_date" "8" "desc"
      (by decide) (by decide) (Or.inl ⟨rfl, rfl⟩) (Or.inl rfl)⟩

/-! ### String inequality and membership helpers for the evaluation engine -/

lemma take3_ne (s t : String) (h : s.data.take 3 ≠ t.data.take 3) : s ≠ t :=
  fun e => h (by rw [e])

lemma take_append_left (p x : String) (n : Nat) (h : n ≤ p.data.length) :
    (p ++ x).data.take n = p.data.take n := by
  rw [String.data_append, List.take_append_of_le_length h]

lemma msgpre_take3 (pre mid suf : String) (h3 : 3 ≤ pre.data.length) :
    ((pre ++ mid) ++ suf).data.take 3 = pre.data.take 3 := by
  rw [take_append_left _ _ _ (by rw [String.data_append, List.length_append]; omega),
    take_append_left _ _ _ h3]

lemma plan_ne_urgent (k d : Int) : planMsg k ≠ urgentMsg d := by
  apply take3_ne
  unfold planMsg urgentMsg
  rw [msgpre_take3 _ _ _ (by decide), msgpre_take3 _ _ _ (by decide)]
  decide

lemma comfort_ne_urgent (k d : Int) : comfortMsg k ≠ urgentMsg d := by
  apply take3_ne
  unfold comfortMsg urgentMsg
  rw [msgpre_take3 _ _ _ (by decide), msgpre_take3 _ _ _ (by decide)]
  decide

lemma unclear_ne_urgent (d : Int) : unclearMsg ≠ urgentMsg d := by
  apply take3_ne
  unfold urgentMsg
  rw [msgpre_take3 _ _ _ (by decide)]
  decide

lemma plan_ne_naics (k : Int) (n : String) : planMsg k ≠ naicsMsg n := by
  apply take3_ne
  unfold planMsg naicsMsg
  rw [msgpre_take3 _ _ _ (by decide), take_append_left _ _ _ (by decide)]
  decide

lemma comfort_ne_naics (k : Int) (n : String) : comfortMsg k ≠ naicsMsg n := by
  apply take3_ne
  unfold comfortMsg naicsMsg
  rw [msgpre_take3 _ _ _ (by decide), take_append_left _ _ _ (by decide)]
  decide

lemma unclear_ne_naics (n : String) : unclearMsg ≠ naicsMsg n := by
  apply take3_ne
  unfold naicsMsg
  rw [take_append_left _ _ _ (by decide)]
  decide

lemma plan_ne_concrete (k : Int) (c : String) (hc : c.data.take 3 ≠ "⏰ R".data.take 3) :
    planMsg k ≠ c := by
  apply take3_ne
  unfold planMsg
  rw [msgpre_take3 _ _ _ (by decide)]
  intro he
  exact hc (by rw [← he]; decide)

lemma comfort_ne_concrete (k : Int) (c : String) (hc : c.data.take 3 ≠ "✅ R".data.take 3) :
    comfortMsg k ≠ c := by
  apply take3_ne
  unfold comfortMsg
  rw [msgpre_take3 _ _ _ (by decide)]
  intro he
  exact hc (by rw [← he]; decide)

lemma mem_set_aside {m s : String} (h : m ∈ set_aside_recommendations s) :
    m = "🏢 Small business set-aside opportunity" ∨
    m = "👩 Women-owned business set-aside opportunity" ∨
    m = "🎖️ Veteran-owned business set-aside opportunity" := by
  unfold set_aside_recommendations at h
  split at h
  · exact absurd h (List.not_mem_nil m)
  · split at h
    · simp only [List.mem_singleton] at h
      exact Or.inl h
    · split at h
      · simp only [List.mem_singleton] at h
        exact Or.inr (Or.inl h)
      · split at h
        · simp only [List.mem_singleton] at h
          exact Or.inr (Or.inr h)
        · exact absurd h (List.not_mem_nil m)

lemma mem_naics {m n : String} (h : m ∈ naics_recommendations n) : m = naicsMsg n := by
  unfold naics_recommendations at h
  split at h
  · exact absurd h (List.not_mem_nil m)
  · simpa using h

lemma mem_active {m a : String} (h : m ∈ active_recommendations a) :
    m = "✅ Opportunity is currently active" ∨ m = "❌ Opportunity is no longer active" := by
  unfold active_recommendations at h
  split at h
  · simp only [List.mem_singleton] at h
    exact Or.inl h
  · split at h
    · simp only [List.mem_singleton] at h
      exact Or.inr h
    · exact absurd h (List.not_mem_nil m)

lemma strFind_isSome_append (n x y : List Char) :
    (strFind n (x ++ n ++ y)).isSome = true := by
  induction x with
  | nil =>
    simp only [List.nil_append]
    cases hn2 : n ++ y with
    | nil =>
      have hnil : n = [] := by
        cases n with
        | nil => rfl
        | cons a as => simp at hn2
      subst hnil
      simp [strFind]
    | cons c t =>
      simp only [strFind]
      rw [if_pos (List.isPrefixOf_iff_prefix.mpr (hn2 ▸ List.prefix_append n y))]
      rfl
  | cons c x ih =>
    simp only [List.cons_append, strFind]
    split
    · rfl
    · rw [Option.isSome_map']
      exact ih

lemma pyContains_embed (pre mid suf : String) : pyContains ((pre ++ mid) ++ suf) mid = true := by
  unfold pyContains pyFind
  have hd : ((pre ++ mid) ++ suf).data = pre.data ++ mid.data ++ suf.data := by
    rw [String.data_append, String.data_append]
  rw [hd]
  exact strFind_isSome_append mid.data pre.data suf.data

/-- Record triggering all four checks (unparseable deadline, small-business
set-aside, NAICS code, active yes), used for C7. -/
def evalOpp : Opp :=
  mkOpp "E1" "" "" "" "541511" "" "not-a-date" "Yes" "Small Business Set-Aside"

/-- Claim C7, counterexample: the claim covers both engines, but the
`app_render.py` engine emits the active tag BEFORE the NAICS tag and has
no set-aside check at all, so on a record triggering all four checks its
output differs from the claimed 1→2→3→4 order produced by `app.py`. -/
theorem c7_render_order_cex :
    AppRender.generate_evaluation_recommendations 0 evalOpp =
      [unclearMsg, "✅ Opportunity is currently active", naicsMsg "541511"] ∧
    App.generate_evaluation_recommendations 0 evalOpp =
      [unclearMsg, "🏢 Small business set-aside opportunity", naicsMsg "541511",
        "✅ Opportunity is currently active"] ∧
    AppRender.generate_evaluation_recommendations 0 evalOpp ≠
      App.generate_evaluation_recommendations 0 evalOpp := by
  exact ⟨by decide, by decide, by decide⟩

/-- Claim C7, amended: only the `app.py` engine appends its checks in the
order deadline → set-aside → NAICS → active; the `app_render.py` engine
runs deadline → active → NAICS and performs no set-aside check.  Both are
pure functions of the injected clock and the record, hence deterministic.
With all four checks triggered (here: an unparseable non-empty deadline,
a small-business set-aside, a non-empty NAICS code, active "yes"), the
`app.py` output is exactly the four tags in order 1→2→3→4 and the
`app_render.py` output is the deadline, active, NAICS tags. -/
theorem c7_app_order_render_divergence (now : Int) (opp : Opp)
    (h1 : pyFromIso (pyReplaceZ opp.response_deadline) = none)
    (h2 : opp.response_deadline ≠ "")
    (h3 : pyContains (pyLower opp.type_of_set_aside_description) "small business" = true)
    (h4 : opp.naics_code ≠ "")
    (h5 : pyLower opp.active = "yes") :
    App.generate_evaluation_recommendations now opp =
      [unclearMsg, "🏢 Small business set-aside opportunity", naicsMsg opp.naics_code,
        "✅ Opportunity is currently active"] ∧
    AppRender.generate_evaluation_recommendations now opp =
      [unclearMsg, "✅ Opportunity is currently active", naicsMsg opp.naics_code] := by
  have hdd : deadlineDiff now opp.response_deadline = none := by
    unfold deadlineDiff
    rw [h1]
  have hdl : deadline_recommendations now opp.response_deadline = [unclearMsg] := by
    unfold deadline_recommendations
    rw [if_neg h2, hdd]
  have hsa : set_aside_recommendations opp.type_of_set_aside_description =
      ["🏢 Small business set-aside opportunity"] := by
    have hs : opp.type_of_set_aside_description ≠ "" := by
      intro he
      rw [he] at h3
      exact absurd h3 (by decide)
    unfold set_aside_recommendations
    rw [if_neg hs, if_pos h3]
  have hna : naics_recommendations opp.naics_code = [naicsMsg opp.naics_code] := by
    unfold naics_recommendations
    rw [if_neg h4]
  have hac : active_recommendations opp.active = ["✅ Opportunity is currently active"] := by
    have ha : opp.active ≠ "" := by
      intro he
      rw [he] at h5
      exact absurd h5 (by decide)
    unfold active_recommendations
    rw [if_pos (by simp [ha, h5])]
  constructor
  · unfold App.generate_evaluation_recommendations
    rw [hdl, hsa, hna, hac]
    rfl
  · unfold AppRender.generate_evaluation_recommendations
    rw [hdl, hna, hac]
    rfl

/-- Witness for the amended C7 at the concrete record `evalOpp`. -/
theorem c7_app_order_render_divergence_witness :
    pyFromIso (pyReplaceZ evalOpp.response_deadline) = none ∧
    evalOpp.response_deadline ≠ "" ∧
    pyContains (pyLower evalOpp.type_of_set_aside_description) "small business" = true ∧
    evalOpp.naics_code ≠ "" ∧
    pyLower evalOpp.active = "yes" ∧
    (App.generate_evaluation_recommendations 5 evalOpp =
      [unclearMsg, "🏢 Small business set-aside opportunity", naicsMsg evalOpp.naics_code,
        "✅ Opportunity is currently active"] ∧
    AppRender.generate_evaluation_recommendations 5 evalOpp =
      [unclearMsg, "✅ Opportunity is currently active", naicsMsg evalOpp.naics_code]) :=
  ⟨by decide, by decide, by decide, by decide, by decide,
    c7_app_order_render_divergence 5 evalOpp (by decide) (by decide) (by decide)
      (by decide) (by decide)⟩

/-- Record with an expired timezone-aware (Z-suffixed) deadline, used to
refute C9. -/
def expiredAwareOpp : Opp :=
  mkOpp "X1" "" "" "" "" "" "2020-01-01T00:00:00Z" "" ""

/-- Claim C9, counterexample: the deadline `"2020-01-01T00:00:00Z"` parses
as ISO-8601 (to an aware datetime, timestamp 1577836800) and lies strictly
in the past of the injected now (1700000000), yet the engine reports the
format-unclear tag, not the urgent tag: `fromisoformat` on the
`'Z'`-replaced string yields an aware datetime, and subtracting the naive
`datetime.now()` raises `TypeError`, which the bare `except` turns into
the format-unclear message. -/
theorem c9_aware_deadline_cex :
    pyFromIso (pyReplaceZ expiredAwareOpp.response_deadline) =
      some ⟨1577836800, true⟩ ∧
    (1577836800 : Int) < 1700000000 ∧
    App.generate_evaluation_recommendations 1700000000 expiredAwareOpp = [unclearMsg] ∧
    unclearMsg ≠ urgentMsg (Int.fdiv (1577836800 - 1700000000) 86400) := by
  exact ⟨by decide, by decide, by decide, unclear_ne_urgent _⟩

/-- Claim C9, amended (restricted to deadlines parsing to a NAIVE
datetime, i.e. carrying no UTC offset): if the parsed deadline lies
strictly in the past of the injected now, the engine emits the urgent tag
carrying the (negative) whole-day difference — which appears verbatim in
the message — and never the plan-ahead, comfortable or format-unclear
tags.  Deadlines carrying an offset (e.g. a `'Z'` suffix) instead hit the
aware-minus-naive `TypeError` and degrade to the format-unclear tag. -/
theorem c9_expired_naive_deadline_urgent (now : Int) (opp : Opp) (dt : PyDateTime)
    (hp : pyFromIso (pyReplaceZ opp.response_deadline) = some dt)
    (hn : dt.aware = false) (hlt : dt.ts < now) :
    App.generate_evaluation_recommendations now opp =
      urgentMsg (Int.fdiv (dt.ts - now) 86400) ::
        (set_aside_recommendations opp.type_of_set_aside_description ++
          naics_recommendations opp.naics_code ++ active_recommendations opp.active) ∧
    Int.fdiv (dt.ts - now) 86400 < 0 ∧
    pyContains (urgentMsg (Int.fdiv (dt.ts - now) 86400))
      (toString (Int.fdiv (dt.ts - now) 86400)) = true ∧
    unclearMsg ∉ App.generate_evaluation_recommendations now opp ∧
    (∀ k : Int, planMsg k ∉ App.generate_evaluation_recommendations now opp) ∧
    (∀ k : Int, comfortMsg k ∉ App.generate_evaluation_recommendations now opp) := by
  have hne : opp.response_deadline ≠ "" := by
    intro he
    rw [he] at hp
    rw [show pyFromIso (pyReplaceZ "") = none from rfl] at hp
    exact Option.noConfusion hp
  have hdays : Int.fdiv (dt.ts - now) 86400 < 0 := by
    rw [Int.fdiv_eq_ediv _ (by norm_num : (0 : Int) ≤ 86400)]
    exact Int.ediv_neg' (by omega) (by norm_num)
  have hdd : deadlineDiff now opp.response_deadline = some (dt.ts - now) := by
    unfold deadlineDiff
    rw [hp]
    show pySubSecs dt ⟨now, false⟩ = some (dt.ts - now)
    unfold pySubSecs
    rw [hn]
    rfl
  have hdl : deadline_recommendations now opp.response_deadline =
      [urgentMsg (Int.fdiv (dt.ts - now) 86400)] := by
    unfold deadline_recommendations
    rw [if_neg hne, hdd]
    show (if Int.fdiv (dt.ts - now) 86400 < 7 then
        [urgentMsg (Int.fdiv (dt.ts - now) 86400)]
      else if Int.fdiv (dt.ts - now) 86400 < 14 then
        [planMsg (Int.fdiv (dt.ts - now) 86400)]
      else [comfortMsg (Int.fdiv (dt.ts - now) 86400)]) = _
    rw [if_pos (by omega)]
  have hstruct : App.generate_evaluation_recommendations now opp =
      urgentMsg (Int.fdiv (dt.ts - now) 86400) ::
        (set_aside_recommendations opp.type_of_set_aside_description ++
          naics_recommendations opp.naics_code ++ active_recommendations opp.active) := by
    unfold App.generate_evaluation_recommendations
    rw [hdl]
    simp
  have hrest : ∀ m : String,
      m ∈ set_aside_recommendations opp.type_of_set_aside_description ++
        naics_recommendations opp.naics_code ++ active_recommendations opp.active →
      m = "🏢 Small business set-aside opportunity" ∨
      m = "👩 Women-owned business set-aside opportunity" ∨
      m = "🎖️ Veteran-owned business set-aside opportunity" ∨
      m = naicsMsg opp.naics_code ∨
      m = "✅ Opportunity is currently active" ∨
      m = "❌ Opportunity is no longer active" := by
    intro m hm
    rcases List.mem_append.mp hm with hm2 | hm2
    · rcases List.mem_append.mp hm2 with hm3 | hm3
      · rcases mem_set_aside hm3 with h | h | h
        · exact Or.inl h
        · exact Or.inr (Or.inl h)
        · exact Or.inr (Or.inr (Or.inl h))
      · exact Or.inr (Or.inr (Or.inr (Or.inl (mem_naics hm3))))
    · rcases mem_active hm2 with h | h
      · exact Or.inr (Or.inr (Or.inr (Or.inr (Or.inl h))))
      · exact Or.inr (Or.inr (Or.inr (Or.inr (Or.inr h))))
  refine ⟨hstruct, hdays, ?_, ?_, ?_, ?_⟩
  · unfold urgentMsg
    exact pyContains_embed _ _ _
  · rw [hstruct]
    intro hmem
    rcases List.mem_cons.mp hmem with h | h
    · exact unclear_ne_urgent _ h
    · rcases hrest _ h with h | h | h | h | h | h
      · exact absurd h (by decide)
      · exact absurd h (by decide)
      · exact absurd h (by decide)
      · exact unclear_ne_naics _ h
      · exact absurd h (by decide)
      · exact absurd h (by decide)
  · intro k
    rw [hstruct]
    intro hmem
    rcases List.mem_cons.mp hmem with h | h
    · exact plan_ne_urgent k _ h
    · rcases hrest _ h with h | h | h | h | h | h
      · exact plan_ne_concrete k _ (by decide) h
      · exact plan_ne_concrete k _ (by decide) h
      · exact plan_ne_concrete k _ (by decide) h
      · exact plan_ne_naics k _ h
      · exact plan_ne_concrete k _ (by decide) h
      · exact plan_ne_concrete k _ (by decide) h
  · intro k
    rw [hstruct]
    intro hmem
    rcases List.mem_cons.mp hmem with h | h
    · exact comfort_ne_urgent k _ h
    · rcases hrest _ h with h | h | h | h | h | h
      · exact comfort_ne_concrete k _ (by decide) h
      · exact comfort_ne_concrete k _ (by decide) h
      · exact comfort_ne_concrete k _ (by decide) h
      · exact comfort_ne_naics k _ h
      · exact comfort_ne_concrete k _ (by decide) h
      · exact comfort_ne_concrete k _ (by decide) h

/-- Record with an expired naive (offset-free) deadline, used in the C9
witness: 2024-01-10T00:00:00 is timestamp 1704844800. -/
def expiredNaiveOpp : Opp :=
  mkOpp "N1" "" "" "" "" "" "2024-01-10T00:00:00" "" ""

/-- Witness for the amended C9 at a concrete input: the naive deadline
timestamp 1704844800 against now = 1704844900 (100 seconds later). -/
theorem c9_expired_naive_deadline_urgent_witness :
    pyFromIso (pyReplaceZ expiredNaiveOpp.response_deadline) =
      some ⟨1704844800, false⟩ ∧
    (⟨1704844800, false⟩ : PyDateTime).aware = false ∧
    (1704844800 : Int) < 1704844900 ∧
    (App.generate_evaluation_recommendations 1704844900 expiredNaiveOpp =
      urgentMsg (Int.fdiv ((1704844800 : Int) - 1704844900) 86400) ::
        (set_aside_recommendations expiredNaiveOpp.type_of_set_aside_description ++
          naics_recommendations expiredNaiveOpp.naics_code ++
          active_recommendations expiredNaiveOpp.active) ∧
    Int.fdiv ((1704844800 : Int) - 1704844900) 86400 < 0 ∧
    pyContains (urgentMsg (Int.fdiv ((1704844800 : Int) - 1704844900) 86400))
      (toString (Int.fdiv ((1704844800 : Int) - 1704844900) 86400)) = true ∧
    unclearMsg ∉ App.generate_evaluation_recommendations 1704844900 expiredNaiveOpp ∧
    (∀ k : Int, planMsg k ∉
      App.generate_evaluation_recommendations 1704844900 expiredNaiveOpp) ∧
    (∀ k : Int, comfortMsg k ∉
      App.generate_evaluation_recommendations 1704844900 expiredNaiveOpp)) :=
  ⟨by decide, rfl, by decide,
    c9_expired_naive_deadline_urgent 1704844900 expiredNaiveOpp ⟨1704844800, false⟩
      (by decide) rfl (by decide)⟩

/-! ### Extraction claims -/

lemma filterMap_guard_eq_map_filter (p : α → Bool) (g : α → β) (l : List α) :
    l.filterMap (fun a => if p a then some (g a) else none) = (l.filter p).map g := by
  induction l with
  | nil => rfl
  | cons a l ih =>
    by_cases h : p a = true
    · simp [List.filterMap_cons, List.filter_cons, h, ih]
    · simp [List.filterMap_cons, List.filter_cons, h, ih]

/-- Claim C8, confirmed: the extraction visits keywords in the fixed
caller order, emitting for each keyword present in the lowered
description exactly one stripped first-occurrence window (this is the
`filter`/`map` characterization), the result never exceeds the cap, an
empty description yields an empty sequence, and the two source functions
are the parameterizations (window 50, cap 10) and (window 100, cap 15)
over their respective keyword lists. -/
theorem c8_extraction_contract (description : String) (keywords : List String)
    (before after cap : Nat) (hd : description ≠ "") :
    extract_contexts description keywords before after cap =
      ((keywords.filter (fun kw => pyContains (pyLower description) kw)).map
        (keywordContext description (pyLower description) before after)).take cap ∧
    (extract_contexts description keywords before after cap).length ≤ cap ∧
    (∀ kws2 : List String, extract_contexts "" kws2 before after cap = []) ∧
    extract_deliverables_from_description description =
      extract_contexts description deliverable_keywords 50 50 10 ∧
    extract_proposal_requirements_from_description description =
      extract_contexts description requirement_keywords 100 100 15 := by
  refine ⟨?_, ?_, ?_, rfl, rfl⟩
  · simp only [extract_contexts]
    rw [if_neg hd, filterMap_guard_eq_map_filter]
  · simp only [extract_contexts]
    split
    · simp
    · rw [List.length_take]
      exact Nat.min_le_left _ _
  · intro kws2
    rfl

/-- Witness for C8 at a concrete input. -/
theorem c8_extraction_contract_witness :
    ("must obtain security clearance" : String) ≠ "" ∧
    (extract_contexts "must obtain security clearance" ["must", "clearance"] 100 100 15 =
      (((["must", "clearance"] : List String).filter
          (fun kw => pyContains (pyLower "must obtain security clearance") kw)).map
        (keywordContext "must obtain security clearance"
          (pyLower "must obtain security clearance") 100 100)).take 15 ∧
    (extract_contexts "must obtain security clearance" ["must", "clearance"] 100 100 15).length
      ≤ 15 ∧
    (∀ kws2 : List String, extract_contexts "" kws2 100 100 15 = []) ∧
    extract_deliverables_from_description "must obtain security clearance" =
      extract_contexts "must obtain security clearance" deliverable_keywords 50 50 10 ∧
    extract_proposal_requirements_from_description "must obtain security clearance" =
      extract_contexts "must obtain security clearance" requirement_keywords 100 100 15) :=
  ⟨by decide,
    c8_extraction_contract "must obtain security clearance" ["must", "clearance"]
      100 100 15 (by decide)⟩

lemma strFind_isSome_of_prefix (n2 n : List Char) (hpre : n2 <+: n) :
    ∀ l : List Char, (strFind n l).isSome = true → (strFind n2 l).isSome = true := by
  intro l
  induction l with
  | nil =>
    intro h
    simp only [strFind] at h ⊢
    split at h
    · rename_i hp
      rw [if_pos (List.isPrefixOf_iff_prefix.mpr
        (hpre.trans (List.isPrefixOf_iff_prefix.mp hp)))]
      rfl
    · exact absurd h (by simp)
  | cons c t ih =>
    intro h
    simp only [strFind] at h ⊢
    split at h
    · rename_i hp
      rw [if_pos (List.isPrefixOf_iff_prefix.mpr
        (hpre.trans (List.isPrefixOf_iff_prefix.mp hp)))]
      rfl
    · rw [Option.isSome_map'] at h
      split
      · rfl
      · rw [Option.isSome_map']
        exact ih h

lemma pyContains_of_prefix (h : String) (n2 n : String) (hpre : n2.data <+: n.data)
    (hc : pyContains h n = true) : pyContains h n2 = true := by
  unfold pyContains pyFind at hc ⊢
  exact strFind_isSome_of_prefix n2.data n.data hpre h.data hc

/-- Fifty z characters. -/
def zs : String :=
  ⟨List.replicate 50 'z'⟩

/-- A description with a standalone `"deliverable"` at position 0 and a
far-away `"deliverables"` at position 112, used to refute C10. -/
def c10desc : String :=
  ("deliverable" ++ zs ++ zs) ++ (⟨List.replicate 1 'z'⟩ ++ "deliverables")

/-- Context extracted for the keyword `"deliverable"` from `c10desc`. -/
def c10ctxA : String :=
  "deliverable" ++ zs

/-- Context extracted for the keyword `"deliverables"` from `c10desc`. -/
def c10ctxB : String :=
  zs ++ "deliverables"

/-- Claim C10, counterexample: on a description containing the word
`"deliverables"` the two keywords need NOT match the same textual
occurrence — here `"deliverable"` first occurs at index 0 and
`"deliverables"` at index 112 — and the two extracted contexts are
disjoint windows, not near-duplicates of one occurrence. -/
theorem c10_same_occurrence_cex :
    pyContains (pyLower c10desc) "deliverables" = true ∧
    pyFind (pyLower c10desc) "deliverable" = some 0 ∧
    pyFind (pyLower c10desc) "deliverables" = some 112 ∧
    extract_deliverables_from_description c10desc = [c10ctxA, c10ctxB] ∧
    c10ctxA ≠ c10ctxB := by
  exact ⟨by decide, by decide, by decide, by decide, by decide⟩

/-- Claim C10, amended: the deliverables keyword list does contain the
substring pair `"deliverable"`/`"deliverables"` (the former a prefix of
the latter), so every description containing `"deliverables"` triggers
both keywords and the result starts with their two contexts in keyword
order; when the first occurrence of the singular form IS the plural
occurrence (e.g. the description `"deliverables"` itself) the two
contexts overlap the same occurrence and the result contains duplicate
context strings — the extraction performs no deduplication.  But when the
singular form also occurs separately earlier, the two contexts come from
different occurrences. -/
theorem c10_substring_pair_contexts :
    ("deliverable" ∈ deliverable_keywords ∧ "deliverables" ∈ deliverable_keywords ∧
      "deliverable".data.isPrefixOf "deliverables".data = true) ∧
    (∀ d : String, pyContains (pyLower d) "deliverables" = true →
      extract_deliverables_from_description d =
        keywordContext d (pyLower d) 50 50 "deliverable" ::
        keywordContext d (pyLower d) 50 50 "deliverables" ::
        (((deliverable_keywords.drop 2).filter (fun kw => pyContains (pyLower d) kw)).map
          (keywordContext d (pyLower d) 50 50)).take 8) ∧
    extract_deliverables_from_description "deliverables" =
      ["deliverables", "deliverables"] := by
  refine ⟨⟨by decide, by decide, by decide⟩, ?_, by decide⟩
  intro d hc
  have hc1 : pyContains (pyLower d) "deliverable" = true :=
    pyContains_of_prefix (pyLower d) "deliverable" "deliverables" (by decide) hc
  have hd : d ≠ "" := by
    intro he
    rw [he] at hc
    exact absurd hc (by decide)
  unfold extract_deliverables_from_description
  simp only [extract_contexts]
  rw [if_neg hd, filterMap_guard_eq_map_filter]
  rw [show deliverable_keywords =
    "deliverable" :: "deliverables" :: deliverable_keywords.drop 2 from rfl]
  rw [List.filter_cons, List.filter_cons]
  rw [if_pos (show ((fun kw => pyContains (pyLower d) kw) "deliverable") = true from hc1),
    if_pos (show ((fun kw => pyContains (pyLower d) kw) "deliverables") = true from hc)]
  rfl

/-- Witness for the amended C10 at a concrete input. -/
theorem c10_substring_pair_contexts_witness :
    pyContains (pyLower "x deliverables y") "deliverables" = true ∧
    extract_deliverables_from_description "x deliverables y" =
      keywordContext "x deliverables y" (pyLower "x deliverables y") 50 50 "deliverable" ::
      keywordContext "x deliverables y" (pyLower "x deliverables y") 50 50 "deliverables" ::
      (((deliverable_keywords.drop 2).filter
          (fun kw => pyContains (pyLower "x deliverables y") kw)).map
        (keywordContext "x deliverables y" (pyLower "x deliverables y") 50 50)).take 8 :=
  ⟨by decide, c10_substring_pair_contexts.2.1 "x deliverables y" (by decide)⟩

end SST
